import Mathlib

/-!
Shallow embedding of the video-editor component (`src/src/App.tsx`).

The component is a single React function component holding its state in
`useState` hooks.  We embed that state as the record `AppState`, and each
handler / effect as a pure state-transition function.  Times, durations and
widths (JS numbers) are embedded as rationals `ℚ`; image data URLs, blob
URLs and error messages as `String`.  Asynchronous interactions with the
two external collaborators — the media element (seeks) and the ffmpeg
engine (the trim command) — are embedded by passing their outcomes as
explicit parameters.
-/

/-- A thumbnail sample: `type Frame = { time: number; image: string }`
(App.tsx lines 12-15). -/
structure Frame where
  time : ℚ
  image : String
deriving Repr, DecidableEq

/-- The component state: the eight `useState` hooks of `VideoPlayer`
(App.tsx lines 18-27). -/
structure AppState where
  videoSrc : Option String
  trimmedSrc : Option String
  frames : List Frame
  cursorTime : ℚ
  ffmpegReady : Bool
  processingProgress : ℚ
  error : Option String
  trimStart : ℚ
  trimDuration : ℚ
deriving Repr, DecidableEq

/-- The initial values of the `useState` hooks (App.tsx lines 18-27). -/
def initialState : AppState :=
  { videoSrc := none
    trimmedSrc := none
    frames := []
    cursorTime := 0
    ffmpegReady := false
    processingProgress := 0
    error := none
    trimStart := 0
    trimDuration := 5 }

/-- Model of `URL.createObjectURL` on the chosen file, modelled as an injective
tagging of the file reference. -/
def objectURL (file : String) : String := "blob:" ++ file

/-- Embedding of `handleFileChange` (App.tsx lines 53-66): when a file is present, set
`videoSrc` to its object URL and reset `trimmedSrc`, `frames`,
`cursorTime`, `trimStart`, `trimDuration`, `error`, `processingProgress`;
when no file is present, do nothing. -/
def handleFileChange (s : AppState) (file : Option String) : AppState :=
  match file with
  | none => s
  | some f =>
      { s with
        videoSrc := some (objectURL f)
        trimmedSrc := none
        frames := []
        cursorTime := 0
        trimStart := 0
        trimDuration := 5
        error := none
        processingProgress := 0 }

/-- The ffmpeg-loading effect (App.tsx lines 39-51): when the engine is not
yet ready it clears `error` and awaits `ffmpeg.load()`; on success it sets
`ffmpegReady`, on failure it sets the load-error message.  The external
load outcome is the parameter `loadOk`. -/
def ffmpegLoadEffect (s : AppState) (loadOk : Bool) : AppState :=
  if s.ffmpegReady then s
  else if loadOk then { s with error := none, ffmpegReady := true }
  else { s with error := some "Ошибка при загрузке FFmpeg" }

/-- The `ffmpeg.setProgress` callback (App.tsx lines 33-37): each progress
tick from the engine overwrites `processingProgress` with the reported
ratio. -/
def progressTick (s : AppState) (ratio : ℚ) : AppState :=
  { s with processingProgress := ratio }

/-- One argument of the `ffmpeg.run` command line: a literal string or a
number rendered with `toString()` (App.tsx lines 78-88). -/
inductive Tok where
  | lit (s : String)
  | num (q : ℚ)
deriving Repr, DecidableEq

/-- The argument list passed to `ffmpeg.run` by `trimVideo`
(App.tsx lines 78-88): `-ss start` seeks to the trim start, `-t duration`
reads that many seconds, `-c copy` stream-copies without re-encoding, and
`output.mp4` is the freshly written container. -/
def ffmpegRunArgs (start duration : ℚ) : List Tok :=
  [Tok.lit "-ss", Tok.num start, Tok.lit "-i", Tok.lit "input.mp4",
   Tok.lit "-t", Tok.num duration, Tok.lit "-c", Tok.lit "copy",
   Tok.lit "output.mp4"]

/-- The synchronous prefix of `trimVideo` (App.tsx lines 68-88), up to the
point where control is handed to the engine: either the guard
`!ffmpegReady || !videoSrc` rejects the submission and the state is
untouched, or `error` is cleared, `processingProgress` is reset to `0`,
and the engine is invoked with the trim command. -/
inductive TrimStart where
  | rejected (s : AppState)
  | started (s : AppState) (command : List Tok)
deriving Repr, DecidableEq

/-- Embedding of `trimVideo`, part 1 (App.tsx lines 68-88): the guard and the state
resets that precede the `ffmpeg.run` call.  Nothing else is consulted by
the guard — in particular no busy flag. -/
def trimVideoStart (s : AppState) : TrimStart :=
  if !s.ffmpegReady || s.videoSrc.isNone then TrimStart.rejected s
  else
    TrimStart.started
      { s with error := none, processingProgress := 0 }
      (ffmpegRunArgs s.trimStart s.trimDuration)

/-- Whether the submission reached the engine (the `started` branch of
`trimVideoStart`). -/
def trimStartAccepted : TrimStart → Bool
  | TrimStart.rejected _ => false
  | TrimStart.started _ _ => true

/-- The state carried by a `TrimStart`. -/
def trimStartState : TrimStart → AppState
  | TrimStart.rejected s => s
  | TrimStart.started s _ => s

/-- The command issued to the engine, when the submission was accepted. -/
def trimStartCommand : TrimStart → Option (List Tok)
  | TrimStart.rejected _ => none
  | TrimStart.started _ c => some c

/-- Embedding of `trimVideo`, part 2 (App.tsx lines 90-97): settlement of the engine
run.  On success the produced bytes become a fresh object URL stored in
`trimmedSrc`; any throw inside the `try` block is caught and recorded as
the trim-error message — `trimmedSrc` is not written on failure. -/
def trimVideoSettle (s : AppState) (outcome : Except String String) : AppState :=
  match outcome with
  | Except.ok artifactUrl => { s with trimmedSrc := some artifactUrl }
  | Except.error _ => { s with error := some "Ошибка при обрезке видео" }

/-- The capture loop of `captureFrames` (App.tsx lines 100-126) on the
nominal path where every seek settles: `frameCount = 10`,
`interval = duration / frameCount`, and for `i = 0..frameCount` the
`seeked` handler captures the displayed image at `time = i * interval`.
`capture` is the canvas snapshot (`canvas.toDataURL()`) at the settled
time. -/
def captureFramesList (duration : ℚ) (capture : ℚ → String) : List Frame :=
  let frameCount : ℕ := 10
  let interval : ℚ := duration / (frameCount : ℚ)
  (List.range (frameCount + 1)).map fun i =>
    { time := (i : ℚ) * interval, image := capture ((i : ℚ) * interval) }

/-- The same capture loop with per-seek outcomes: `outcomes i` is
`some image` when the seek for sample `i` settles (the `seeked` event
fires and the handler captures `image`), and `none` when it fails.  A
failed seek means the awaited promise never resolves, so the loop stalls:
no later iteration runs and the function never reaches `setFrames` —
the run produces no published list at all (`none`). -/
def sampleLoop (interval : ℚ) (outcomes : ℕ → Option String) :
    List ℕ → Option (List Frame)
  | [] => some []
  | i :: rest =>
      match outcomes i with
      | none => none
      | some img =>
          match sampleLoop interval outcomes rest with
          | none => none
          | some fs => some ({ time := (i : ℚ) * interval, image := img } :: fs)

/-- Embedding of `captureFrames` under per-seek outcomes: the loop over `i = 0..10`. -/
def captureFramesRun (duration : ℚ) (outcomes : ℕ → Option String) :
    Option (List Frame) :=
  sampleLoop (duration / 10) outcomes (List.range 11)

/-- The effect of one `captureFrames` run on the component state: only a
completed run calls `setFrames` (App.tsx line 125); a stalled run changes
nothing — in particular it sets no error. -/
def applyCaptureFrames (s : AppState) (duration : ℚ)
    (outcomes : ℕ → Option String) : AppState :=
  match captureFramesRun duration outcomes with
  | some fs => { s with frames := fs }
  | none => s

/-- How many seeks the loop issues before stalling: one per iteration, and
a failed seek is the last one issued (the loop never advances past it). -/
def seekLoopCount (outcomes : ℕ → Option String) : List ℕ → ℕ
  | [] => 0
  | i :: rest =>
      match outcomes i with
      | none => 1
      | some _ => 1 + seekLoopCount outcomes rest

/-- Seeks issued by one `captureFrames` run. -/
def seeksIssued (outcomes : ℕ → Option String) : ℕ :=
  seekLoopCount outcomes (List.range 11)

/-- Embedding of `onTimelineClick` (App.tsx lines 165-167): when the video ref is
present, issue a seek of the media element to `time`; the result is the
seek request issued, if any. -/
def onTimelineClick (videoPresent : Bool) (time : ℚ) : Option ℚ :=
  if videoPresent then some time else none

/-- The click handler attached to a rendered frame (App.tsx line 394):
`onClick={() => onTimelineClick(frame.time)}` — it passes the frame's
recorded `time` field, not any pixel coordinate. -/
def frameClickSeek (videoPresent : Bool) (f : Frame) : Option ℚ :=
  onTimelineClick videoPresent f.time

/-- Embedding of `getCursorPosition` (App.tsx lines 169-178): `0` when a ref is missing
or the duration is `0`; otherwise `min((cursorTime/duration) * width,
width)`. -/
def getCursorPosition (videoPresent timelinePresent : Bool)
    (cursorTime duration width : ℚ) : ℚ :=
  if !videoPresent || !timelinePresent || decide (duration = 0) then 0
  else min (cursorTime / duration * width) width

/-- A reachable state with the engine ready and a source loaded: file
chosen, then the load effect succeeded. -/
def loadedReadyState : AppState :=
  ffmpegLoadEffect (handleFileChange initialState (some "video.mp4")) true

/-- A reachable mid-run state: a trim was submitted from
`loadedReadyState` (the guard accepted it and the engine run began) and a
progress tick has since reported ratio `1/2` — the job is in flight. -/
def midRunState : AppState :=
  progressTick (trimStartState (trimVideoStart loadedReadyState)) (1/2)

/-- Unfolding of the capture loop: the `i`-th sample is taken at
`i * (D / 10)`. -/
theorem captureFramesList_eq (D : ℚ) (capture : ℚ → String) :
    captureFramesList D capture =
      (List.range 11).map fun i =>
        { time := (i : ℚ) * (D / 10), image := capture ((i : ℚ) * (D / 10)) } := rfl

/-- C1: with sample count `N = 10`, `captureFrames` on a resource of known
duration `D ≥ 0` produces exactly `N + 1 = 11` frames, whose `time` fields
equal `i * D / N` for `i = 0..N` in that order, hence are non-decreasing. -/
theorem captureFrames_count_and_times (D : ℚ) (capture : ℚ → String)
    (hD : 0 ≤ D) :
    (captureFramesList D capture).length = 11 ∧
    (∀ (i : ℕ) (h : i < (captureFramesList D capture).length),
        ((captureFramesList D capture).get ⟨i, h⟩).time = (i : ℚ) * (D / 10)) ∧
    (captureFramesList D capture).Pairwise (fun a b => a.time ≤ b.time) := by
  rw [captureFramesList_eq]
  refine ⟨by simp, ?_, ?_⟩
  · intro i h
    simp
  · rw [List.pairwise_map]
    refine (List.pairwise_lt_range 11).imp ?_
    intro a b hab
    have hcast : (a : ℚ) ≤ (b : ℚ) := by exact_mod_cast hab.le
    exact mul_le_mul_of_nonneg_right hcast (div_nonneg hD (by norm_num))

/-- Witness for C1 at `D = 20`. -/
theorem captureFrames_count_and_times_witness :
    (0 : ℚ) ≤ 20 ∧
    ((captureFramesList 20 (fun _ => "img")).length = 11 ∧
     (∀ (i : ℕ) (h : i < (captureFramesList 20 (fun _ => "img")).length),
        ((captureFramesList 20 (fun _ => "img")).get ⟨i, h⟩).time =
          (i : ℚ) * ((20 : ℚ) / 10)) ∧
     (captureFramesList 20 (fun _ => "img")).Pairwise
       (fun a b => a.time ≤ b.time)) :=
  ⟨by norm_num, captureFrames_count_and_times 20 (fun _ => "img") (by norm_num)⟩

/-- C2: for `t ∈ [0, d]` and track width `w ≥ 0`, `getCursorPosition`
returns an offset in `[0, w]`, and at duration `0` it returns `0` (the
guard fires before the division). -/
theorem getCursorPosition_bounds (t d w : ℚ)
    (ht0 : 0 ≤ t) (htd : t ≤ d) (hw : 0 ≤ w) :
    0 ≤ getCursorPosition true true t d w ∧
    getCursorPosition true true t d w ≤ w ∧
    getCursorPosition true true t 0 w = 0 := by
  refine ⟨?_, ?_, by simp [getCursorPosition]⟩ <;>
  · unfold getCursorPosition
    by_cases hd : d = 0
    · simp [hd, hw]
    · have hdpos : 0 < d := lt_of_le_of_ne (ht0.trans htd) (Ne.symm hd)
      simp only [hd, Bool.not_true, Bool.false_or, decide_False, if_false]
      first
      | exact le_min (mul_nonneg (div_nonneg ht0 hdpos.le) hw) hw
      | exact min_le_right _ _

/-- Witness for C2 at `t = 3`, `d = 4`, `w = 100`. -/
theorem getCursorPosition_bounds_witness :
    ((0 : ℚ) ≤ 3 ∧ (3 : ℚ) ≤ 4 ∧ (0 : ℚ) ≤ 100) ∧
    (0 ≤ getCursorPosition true true 3 4 100 ∧
     getCursorPosition true true 3 4 100 ≤ 100 ∧
     getCursorPosition true true 3 0 100 = 0) :=
  ⟨⟨by norm_num, by norm_num, by norm_num⟩,
   getCursorPosition_bounds 3 4 100 (by norm_num) (by norm_num) (by norm_num)⟩

/-- Helper: a failed seek anywhere in the loop means the run never
completes — `sampleLoop` returns `none`. -/
theorem sampleLoop_eq_none_of_fail (interval : ℚ)
    (outcomes : ℕ → Option String) :
    ∀ l : List ℕ, (∃ i ∈ l, outcomes i = none) →
      sampleLoop interval outcomes l = none := by
  intro l
  induction l with
  | nil => rintro ⟨i, hi, _⟩; cases hi
  | cons a rest ih =>
      rintro ⟨i, hi, hnone⟩
      rcases List.mem_cons.mp hi with rfl | hmem
      · simp [sampleLoop, hnone]
      · unfold sampleLoop
        cases h : outcomes a with
        | none => rfl
        | some img => rw [ih ⟨i, hmem, hnone⟩]

/-- Helper: if the seek at index `i` fails, the loop over `l1 ++ i :: l2`
issues at most `l1.length + 1` seeks: the failing one is the last. -/
theorem seekLoopCount_le_of_fail (outcomes : ℕ → Option String) (i : ℕ)
    (hfail : outcomes i = none) :
    ∀ l1 l2 : List ℕ,
      seekLoopCount outcomes (l1 ++ i :: l2) ≤ l1.length + 1 := by
  intro l1
  induction l1 with
  | nil => intro l2; simp [seekLoopCount, hfail]
  | cons a rest ih =>
      intro l2
      show seekLoopCount outcomes (a :: (rest ++ i :: l2)) ≤ rest.length + 1 + 1
      unfold seekLoopCount
      cases outcomes a with
      | none =>
          show (1 : ℕ) ≤ rest.length + 1 + 1
          omega
      | some img =>
          show 1 + seekLoopCount outcomes (rest ++ i :: l2) ≤ rest.length + 1 + 1
          have := ih l2
          omega

/-- Helper: decomposing the sample index range around a failing index. -/
theorem range_eleven_split (i : ℕ) (hi : i < 11) :
    List.range 11 = List.range i ++ i :: ((List.range (10 - i)).map (i + 1 + ·)) := by
  have h1 : 11 = (i + 1) + (10 - i) := by omega
  rw [h1, List.range_add, List.range_succ]
  simp [List.append_assoc]

/-- C3 counterexample: load a file (clearing the frames), then run the
sampler against a 20-second resource whose seeks fail from index 3 on.
The published frame sequence stays empty — but the caller is NOT notified:
the state is completely unchanged and no error value is set, contradicting
the claim's notification clause. -/
theorem captureFrames_failure_not_notified :
    (applyCaptureFrames (handleFileChange initialState (some "video.mp4")) 20
        (fun i => if i < 3 then some "img" else none)).frames = [] ∧
    (applyCaptureFrames (handleFileChange initialState (some "video.mp4")) 20
        (fun i => if i < 3 then some "img" else none)).error = none := by
  constructor <;> rfl

/-- C3 amended: if any seek of a sampler run fails (say first at index
`i ≤ 10`), the run stalls: the component state is left completely
unchanged — the published frame sequence remains whatever it was (empty
after a fresh load), at most `i + 1` seeks are ever issued, and no error
is set, so the caller is never notified of the failure. -/
theorem captureFrames_seek_failure_silent (s : AppState) (D : ℚ)
    (outcomes : ℕ → Option String) (i : ℕ) (hi : i < 11)
    (hfail : outcomes i = none) :
    applyCaptureFrames s D outcomes = s ∧ seeksIssued outcomes ≤ i + 1 := by
  constructor
  · unfold applyCaptureFrames captureFramesRun
    rw [sampleLoop_eq_none_of_fail _ _ _ ⟨i, List.mem_range.mpr hi, hfail⟩]
  · unfold seeksIssued
    rw [range_eleven_split i hi]
    have := seekLoopCount_le_of_fail outcomes i hfail (List.range i)
      ((List.range (10 - i)).map (i + 1 + ·))
    simpa using this

/-- Witness for the amended C3 at a concrete state and outcome family. -/
theorem captureFrames_seek_failure_silent_witness :
    ((3 : ℕ) < 11 ∧ (fun i => if i < 3 then some "img" else none) 3 = none) ∧
    (applyCaptureFrames loadedReadyState 20
        (fun i => if i < 3 then some "img" else none) = loadedReadyState ∧
     seeksIssued (fun i => if i < 3 then some "img" else none) ≤ 3 + 1) :=
  ⟨⟨by decide, by decide⟩,
   captureFrames_seek_failure_silent loadedReadyState 20
     (fun i => if i < 3 then some "img" else none) 3 (by decide) (by decide)⟩

/-- C4: while the engine is not ready (`ffmpegReady = false`), a trim
submission is rejected by the guard: the engine is never invoked and the
state is returned untouched. -/
theorem trim_rejected_when_engine_not_ready (s : AppState)
    (h : s.ffmpegReady = false) :
    trimVideoStart s = TrimStart.rejected s := by
  unfold trimVideoStart
  rw [h]
  rfl

/-- Witness for C4 at the initial state (engine not yet loaded). -/
theorem trim_rejected_when_engine_not_ready_witness :
    initialState.ffmpegReady = false ∧
    trimVideoStart initialState = TrimStart.rejected initialState :=
  ⟨rfl, trim_rejected_when_engine_not_ready initialState rfl⟩

/-- C5: loading a new source file clears the frame sequence, resets the
cursor to `0`, and resets the derived trim state: trimmed artifact, trim
start, trim duration (to its default `5`), error and progress. -/
theorem handleFileChange_resets (s : AppState) (f : String) :
    (handleFileChange s (some f)).frames = [] ∧
    (handleFileChange s (some f)).cursorTime = 0 ∧
    (handleFileChange s (some f)).trimmedSrc = none ∧
    (handleFileChange s (some f)).trimStart = 0 ∧
    (handleFileChange s (some f)).trimDuration = 5 ∧
    (handleFileChange s (some f)).error = none ∧
    (handleFileChange s (some f)).processingProgress = 0 ∧
    (handleFileChange s (some f)).videoSrc = some (objectURL f) := by
  unfold handleFileChange
  exact ⟨rfl, rfl, rfl, rfl, rfl, rfl, rfl, rfl⟩

/-- Helper: with the engine ready and a source loaded, a submission passes
the guard and starts an engine run with the trim command built from the
current `trimStart` and `trimDuration`. -/
theorem trimVideoStart_accepted (s : AppState)
    (h1 : s.ffmpegReady = true) (h2 : s.videoSrc.isSome = true) :
    trimVideoStart s =
      TrimStart.started { s with error := none, processingProgress := 0 }
        (ffmpegRunArgs s.trimStart s.trimDuration) := by
  rcases Option.isSome_iff_exists.mp h2 with ⟨v, hv⟩
  unfold trimVideoStart
  rw [h1, hv]
  rfl

/-- C6: every accepted trim submission drives the engine with the command
`-ss start -i input.mp4 -t duration -c copy output.mp4` — seek to the
snapshot's `start`, read `duration` seconds, stream-copy the codec
streams without re-encoding, and write the new container `output.mp4`. -/
theorem trim_command_is_seek_read_copy (s : AppState)
    (h1 : s.ffmpegReady = true) (h2 : s.videoSrc.isSome = true) :
    trimStartCommand (trimVideoStart s) =
      some [Tok.lit "-ss", Tok.num s.trimStart, Tok.lit "-i",
            Tok.lit "input.mp4", Tok.lit "-t", Tok.num s.trimDuration,
            Tok.lit "-c", Tok.lit "copy", Tok.lit "output.mp4"] := by
  rw [trimVideoStart_accepted s h1 h2]
  rfl

/-- Witness for C6: start `2`, duration `5` yields the
trim-from-second-2-for-5-seconds stream-copy command. -/
theorem trim_command_is_seek_read_copy_witness :
    (({ loadedReadyState with trimStart := 2, trimDuration := 5 } :
        AppState).ffmpegReady = true ∧
     ({ loadedReadyState with trimStart := 2, trimDuration := 5 } :
        AppState).videoSrc.isSome = true) ∧
    trimStartCommand (trimVideoStart
        { loadedReadyState with trimStart := 2, trimDuration := 5 }) =
      some [Tok.lit "-ss", Tok.num 2, Tok.lit "-i", Tok.lit "input.mp4",
            Tok.lit "-t", Tok.num 5, Tok.lit "-c", Tok.lit "copy",
            Tok.lit "output.mp4"] :=
  ⟨⟨by decide, by decide⟩,
   trim_command_is_seek_read_copy
     { loadedReadyState with trimStart := 2, trimDuration := 5 }
     (by decide) (by decide)⟩

/-- C7: when the engine run fails (any throw inside the `try` block), the
job ends with an observable error value — the caught trim-error message —
rather than an uncaught fault; `trimmedSrc` is not written, so the failed
job produces no artifact reference; and the resulting state still passes
the submission guard, so the user may resubmit. -/
theorem trim_engine_failure_surfaces_error (s : AppState) (reason : String)
    (h1 : s.ffmpegReady = true) (h2 : s.videoSrc.isSome = true) :
    (trimVideoSettle s (Except.error reason)).error =
      some "Ошибка при обрезке видео" ∧
    (trimVideoSettle s (Except.error reason)).trimmedSrc = s.trimmedSrc ∧
    trimStartAccepted
      (trimVideoStart (trimVideoSettle s (Except.error reason))) = true := by
  refine ⟨rfl, rfl, ?_⟩
  have h1s : (trimVideoSettle s (Except.error reason)).ffmpegReady = true := h1
  have h2s : (trimVideoSettle s (Except.error reason)).videoSrc.isSome = true := h2
  rw [trimVideoStart_accepted _ h1s h2s]
  rfl

/-- Witness for C7 at a concrete mid-run state. -/
theorem trim_engine_failure_surfaces_error_witness :
    (midRunState.ffmpegReady = true ∧ midRunState.videoSrc.isSome = true) ∧
    ((trimVideoSettle midRunState (Except.error "boom")).error =
       some "Ошибка при обрезке видео" ∧
     (trimVideoSettle midRunState (Except.error "boom")).trimmedSrc =
       midRunState.trimmedSrc ∧
     trimStartAccepted (trimVideoStart
       (trimVideoSettle midRunState (Except.error "boom"))) = true) :=
  ⟨⟨by decide, by decide⟩,
   trim_engine_failure_surfaces_error midRunState "boom" (by decide) (by decide)⟩

/-- C8 counterexample: `midRunState` is a reachable state with a trim job
in flight (a submission from `loadedReadyState` was accepted and the
engine has reported progress `1/2`), yet a second submission issued there
is NOT rejected — the guard consults only `ffmpegReady` and `videoSrc`, so
the second run is started against the shared engine, contradicting the
claimed single-flight rejection. -/
theorem trim_second_submit_while_running_accepted :
    trimStartAccepted (trimVideoStart loadedReadyState) = true ∧
    midRunState.processingProgress = 1/2 ∧
    trimStartAccepted (trimVideoStart midRunState) = true := by
  exact ⟨rfl, rfl, rfl⟩

/-- C8 amended: nothing enforces single-flight — in every state in which
the engine is ready and a source is present, a submission is accepted and
an engine run is started, whether or not another job is already in
flight. -/
theorem trim_submit_has_no_single_flight_guard (s : AppState)
    (h1 : s.ffmpegReady = true) (h2 : s.videoSrc.isSome = true) :
    trimStartAccepted (trimVideoStart s) = true := by
  rw [trimVideoStart_accepted s h1 h2]
  rfl

/-- Witness for the amended C8 at the in-flight state. -/
theorem trim_submit_has_no_single_flight_guard_witness :
    (midRunState.ffmpegReady = true ∧ midRunState.videoSrc.isSome = true) ∧
    trimStartAccepted (trimVideoStart midRunState) = true :=
  ⟨⟨by decide, by decide⟩,
   trim_submit_has_no_single_flight_guard midRunState (by decide) (by decide)⟩

/-- C9: the click handler of a rendered frame seeks the media element to
exactly the frame's recorded `time` field — `onTimelineClick` receives
`frame.time` itself, no pixel-derived value. -/
theorem frame_click_seeks_recorded_time (f : Frame) :
    frameClickSeek true f = some f.time := rfl

/-- C10: an accepted trim submission first clears the error value and
resets progress to `0`; and on failure the settlement step writes only the
error — `trimmedSrc` keeps whatever artifact an earlier successful trim
left there, so the old artifact stays exposed alongside the new error. -/
theorem trim_resets_then_failure_keeps_old_artifact (s s1 : AppState)
    (reason : String)
    (h1 : s.ffmpegReady = true) (h2 : s.videoSrc.isSome = true) :
    trimVideoStart s =
      TrimStart.started { s with error := none, processingProgress := 0 }
        (ffmpegRunArgs s.trimStart s.trimDuration) ∧
    (trimVideoSettle s1 (Except.error reason)).trimmedSrc = s1.trimmedSrc ∧
    (trimVideoSettle s1 (Except.error reason)).error =
      some "Ошибка при обрезке видео" :=
  ⟨trimVideoStart_accepted s h1 h2, rfl, rfl⟩

/-- A reachable state holding the artifact of an earlier successful trim
and a stale error message. -/
def oldArtifactState : AppState :=
  { loadedReadyState with
    trimmedSrc := some "blob:old-artifact"
    error := some "stale" }

/-- Witness for C10: resubmitting from `oldArtifactState` clears the stale
error and the progress, and a failed run leaves the old artifact in place
next to the new error. -/
theorem trim_resets_then_failure_keeps_old_artifact_witness :
    (oldArtifactState.ffmpegReady = true ∧
     oldArtifactState.videoSrc.isSome = true) ∧
    (trimVideoStart oldArtifactState =
      TrimStart.started
        { oldArtifactState with error := none, processingProgress := 0 }
        (ffmpegRunArgs oldArtifactState.trimStart
          oldArtifactState.trimDuration) ∧
     (trimVideoSettle oldArtifactState (Except.error "boom")).trimmedSrc =
       oldArtifactState.trimmedSrc ∧
     (trimVideoSettle oldArtifactState (Except.error "boom")).error =
       some "Ошибка при обрезке видео") :=
  ⟨⟨rfl, rfl⟩,
   trim_resets_then_failure_keeps_old_artifact oldArtifactState
     oldArtifactState "boom" rfl rfl⟩
